import Mathlib

/-!
Verification of the infinite-backrooms-rebuild conversation parsers.

We shallowly embed the string-processing core of the repository
(`conversation_recreator.py`, `rebuild_conversations_metadata.py`,
`personality_system.py`, `template_manager.py`).  Text is modelled as
`List Char`; every regular expression of the source is hand-compiled into
an equivalent explicit scanner, with leftmost-match and backtracking
behaviour reproduced.
-/

set_option maxRecDepth 10000

abbrev Str := List Char

def str (s : String) : Str := s.data

/-- ASCII whitespace, the character class of `\s` and of `str.strip()`
for the ASCII inputs this corpus contains. -/
def isWs (c : Char) : Bool :=
  c == ' ' || c == '\t' || c == '\n' || c == '\r' || c == '\x0b' || c == '\x0c'

/-- Python `str.strip()`. -/
def stripStr (s : Str) : Str :=
  ((s.dropWhile isWs).reverse.dropWhile isWs).reverse

/-- Python `str.lower()` on ASCII. -/
def lowerChar (c : Char) : Char :=
  if 'A' ≤ c && c ≤ 'Z' then Char.ofNat (c.toNat + 32) else c

def lowerStr (s : Str) : Str := s.map lowerChar

/-- Leftmost split of `s` around the literal `pat`:
`splitFirst pat s = some (pre, post)` iff `s = pre ++ pat ++ post` with the
occurrence of `pat` leftmost. -/
def splitFirst (pat : Str) : Str → Option (Str × Str)
  | [] => if pat.isEmpty then some ([], []) else none
  | c :: rest =>
    if pat.isPrefixOf (c :: rest) then some ([], (c :: rest).drop pat.length)
    else
      match splitFirst pat rest with
      | some (pre, post) => some (c :: pre, post)
      | none => none

/-- Python `pat in s` (substring test). -/
def occurs (pat s : Str) : Bool := (splitFirst pat s).isSome

/-- Python `str.split(',')`. -/
def splitComma : Str → List Str
  | [] => [[]]
  | c :: rest =>
    if c == ',' then [] :: splitComma rest
    else
      match splitComma rest with
      | [] => [[c]]
      | g :: gs => (c :: g) :: gs

def isDigitCh (c : Char) : Bool := '0' ≤ c && c ≤ '9'

/-- Value of a digit run. -/
def digitsToNat (s : Str) : Nat :=
  s.foldl (fun acc c => acc * 10 + (c.toNat - '0'.toNat)) 0

example : stripStr (str "  a b \n") = str "a b" := by decide
example : splitFirst (str "ab") (str "xxaby") = some (str "xx", str "y") := by decide
example : splitComma (str "a,,b") = [str "a", [], str "b"] := by decide

/-! ### Python `float(...)` acceptance

`float(s)` strips surrounding whitespace, allows an optional sign, and then
either `inf`, `infinity`, `nan` (case-insensitive) or a decimal literal
`d+ | d+. | d+.d+ | .d+` with an optional `e`/`E` exponent; underscores are
permitted only between two digits.  We only need acceptance (the parsers
never use a temperature's numeric value for control flow), so temperatures
are modelled by their validated source tokens. -/

/-- Every `_` is flanked by digits on both sides. -/
def underscoresOk : Str → Bool
  | [] => true
  | '_' :: _ => false
  | c :: rest => underscoresOkAux c rest
where
  underscoresOkAux : Char → Str → Bool
    | _, [] => true
    | prev, '_' :: rest =>
      match rest with
      | nxt :: _ => isDigitCh prev && isDigitCh nxt && underscoresOkAux '_' rest
      | [] => false
    | _, c :: rest => underscoresOkAux c rest

/-- Mantissa without underscores: `d+`, `d+.`, `d+.d+` or `.d+`. -/
def mantissaOk (s : Str) : Bool :=
  let intPart := s.takeWhile isDigitCh
  let rest := s.drop intPart.length
  match rest with
  | [] => !intPart.isEmpty
  | '.' :: frac => !(intPart.isEmpty && frac.isEmpty) && frac.all isDigitCh
  | _ => false

/-- Exponent without underscores: `[eE][+-]?d+` already split after `e`. -/
def expOk (s : Str) : Bool :=
  let t := match s with
    | '+' :: r => r
    | '-' :: r => r
    | r => r
  !t.isEmpty && t.all isDigitCh

/-- Numeric (non-inf/nan) part after the optional sign. -/
def numericOk (s : Str) : Bool :=
  underscoresOk s &&
    (let t := s.filter (· != '_')
     match splitFirst ['e'] (lowerStr t) with
     | some (_, _) =>
       let m := t.takeWhile (fun c => lowerChar c != 'e')
       let e := t.drop (m.length + 1)
       mantissaOk m && expOk e
     | none => mantissaOk t)

/-- Whether Python `float(tok)` succeeds. -/
def isPyFloatToken (tok : Str) : Bool :=
  let s := stripStr tok
  let body := match s with
    | '+' :: r => r
    | '-' :: r => r
    | r => r
  let l := lowerStr body
  l == str "inf" || l == str "infinity" || l == str "nan" || numericOk body

example : isPyFloatToken (str " 1.0 ") = true := by decide
example : isPyFloatToken (str "1_0.5e-1_0") = true := by decide
example : isPyFloatToken (str ".5") = true := by decide
example : isPyFloatToken (str "-inf") = true := by decide
example : isPyFloatToken (str "abc") = false := by decide
example : isPyFloatToken (str "") = false := by decide
example : isPyFloatToken (str "1..2") = false := by decide
example : isPyFloatToken (str "1_") = false := by decide
example : isPyFloatToken (str "1e") = false := by decide

/-! ### JSON values and `json.loads`

`Json` models Python's parsed JSON data.  Numeric leaves keep their source
token verbatim: no parser in this repository inspects a JSON number's value.
`jsonParse` models `json.loads` with its default settings (strict strings,
`NaN`/`Infinity`/`-Infinity` accepted, whole input consumed).  Objects keep
their key/value pairs in source order. -/

inductive Json where
  | null : Json
  | bool (b : Bool) : Json
  | num (tok : Str) : Json
  | str (s : Str) : Json
  | arr (elems : List Json) : Json
  | obj (fields : List (Str × Json)) : Json

def jsonWsCh (c : Char) : Bool := c == ' ' || c == '\t' || c == '\n' || c == '\r'

def isHexCh (c : Char) : Bool :=
  isDigitCh c || ('a' ≤ c && c ≤ 'f') || ('A' ≤ c && c ≤ 'F')

def hexVal (c : Char) : Nat :=
  if isDigitCh c then c.toNat - '0'.toNat
  else if 'a' ≤ c && c ≤ 'f' then c.toNat - 'a'.toNat + 10
  else c.toNat - 'A'.toNat + 10

/-- JSON string body after the opening quote; returns decoded text and the
rest after the closing quote.  Control characters are rejected (`strict`). -/
def parseJStr : Nat → Str → Option (Str × Str)
  | 0, _ => none
  | _, [] => none
  | _ + 1, '"' :: rest => some ([], rest)
  | fuel + 1, '\\' :: esc =>
    match esc with
    | '"' :: r => (parseJStr fuel r).map fun (t, rest) => ('"' :: t, rest)
    | '\\' :: r => (parseJStr fuel r).map fun (t, rest) => ('\\' :: t, rest)
    | '/' :: r => (parseJStr fuel r).map fun (t, rest) => ('/' :: t, rest)
    | 'b' :: r => (parseJStr fuel r).map fun (t, rest) => ('\x08' :: t, rest)
    | 'f' :: r => (parseJStr fuel r).map fun (t, rest) => ('\x0c' :: t, rest)
    | 'n' :: r => (parseJStr fuel r).map fun (t, rest) => ('\n' :: t, rest)
    | 'r' :: r => (parseJStr fuel r).map fun (t, rest) => ('\r' :: t, rest)
    | 't' :: r => (parseJStr fuel r).map fun (t, rest) => ('\t' :: t, rest)
    | 'u' :: h1 :: h2 :: h3 :: h4 :: r =>
      if isHexCh h1 && isHexCh h2 && isHexCh h3 && isHexCh h4 then
        let n := ((hexVal h1 * 16 + hexVal h2) * 16 + hexVal h3) * 16 + hexVal h4
        (parseJStr fuel r).map fun (t, rest) => (Char.ofNat n :: t, rest)
      else none
    | _ => none
  | fuel + 1, c :: rest =>
    if c.toNat < 0x20 then none
    else (parseJStr fuel rest).map fun (t, rest2) => (c :: t, rest2)

/-- JSON number token: `-? (0 | [1-9][0-9]*) (\.[0-9]+)? ([eE][+-]?[0-9]+)?`. -/
def scanJNum (s : Str) : Option (Str × Str) :=
  let (sign, s1) := match s with
    | '-' :: r => (['-'], r)
    | r => (([] : Str), r)
  match s1 with
  | [] => none
  | c :: _ =>
    if !isDigitCh c then none
    else
      let intTok : Str := if c == '0' then ['0'] else s1.takeWhile isDigitCh
      let s2 := s1.drop intTok.length
      let (fracTok, s3) := match s2 with
        | '.' :: r =>
          let ds := r.takeWhile isDigitCh
          if ds.isEmpty then (([] : Str), s2) else ('.' :: ds, r.drop ds.length)
        | _ => (([] : Str), s2)
      let (expTok, s4) := match s3 with
        | e :: r =>
          if e == 'e' || e == 'E' then
            let (sg, r2) := match r with
              | '+' :: r2 => (['+'], r2)
              | '-' :: r2 => (['-'], r2)
              | r2 => (([] : Str), r2)
            let ds := r2.takeWhile isDigitCh
            if ds.isEmpty then (([] : Str), s3)
            else (e :: (sg ++ ds), r2.drop ds.length)
          else (([] : Str), s3)
        | [] => (([] : Str), s3)
      some (sign ++ intTok ++ fracTok ++ expTok, s4)

mutual
/-- One JSON value at the head of the input (no leading whitespace). -/
def parseJVal : Nat → Str → Option (Json × Str)
  | 0, _ => none
  | fuel + 1, s =>
    match s with
    | '"' :: rest => (parseJStr (fuel + 1) rest).map fun (t, r) => (Json.str t, r)
    | '{' :: rest => (parseJObj fuel (rest.dropWhile jsonWsCh) true).map
        fun (kvs, r) => (Json.obj kvs, r)
    | '[' :: rest => (parseJArr fuel (rest.dropWhile jsonWsCh) true).map
        fun (es, r) => (Json.arr es, r)
    | _ =>
      if (str "true").isPrefixOf s then some (Json.bool true, s.drop 4)
      else if (str "false").isPrefixOf s then some (Json.bool false, s.drop 5)
      else if (str "null").isPrefixOf s then some (Json.null, s.drop 4)
      else if (str "NaN").isPrefixOf s then some (Json.num (str "NaN"), s.drop 3)
      else if (str "Infinity").isPrefixOf s then some (Json.num (str "Infinity"), s.drop 8)
      else if (str "-Infinity").isPrefixOf s then some (Json.num (str "-Infinity"), s.drop 9)
      else (scanJNum s).map fun (tok, r) => (Json.num tok, r)

/-- Array elements, positioned after `[` (whitespace already skipped);
`first` is true before the first element. -/
def parseJArr : Nat → Str → Bool → Option (List Json × Str)
  | 0, _, _ => none
  | _ + 1, ']' :: rest, true => some ([], rest)
  | fuel + 1, s, _ =>
    match parseJVal fuel s with
    | none => none
    | some (v, r) =>
      match r.dropWhile jsonWsCh with
      | ']' :: rest => some ([v], rest)
      | ',' :: rest =>
        (parseJArr fuel (rest.dropWhile jsonWsCh) false).map
          fun (vs, rest2) => (v :: vs, rest2)
      | _ => none

/-- Object members, positioned after `{` (whitespace already skipped). -/
def parseJObj : Nat → Str → Bool → Option (List (Str × Json) × Str)
  | 0, _, _ => none
  | _ + 1, '}' :: rest, true => some ([], rest)
  | fuel + 1, '"' :: s, _ =>
    match parseJStr (fuel + 1) s with
    | none => none
    | some (k, r) =>
      match r.dropWhile jsonWsCh with
      | ':' :: r2 =>
        match parseJVal fuel (r2.dropWhile jsonWsCh) with
        | none => none
        | some (v, r3) =>
          match r3.dropWhile jsonWsCh with
          | '}' :: rest => some ([(k, v)], rest)
          | ',' :: rest =>
            (parseJObj fuel (rest.dropWhile jsonWsCh) false).map
              fun (kvs, rest2) => ((k, v) :: kvs, rest2)
          | _ => none
      | _ => none
  | _ + 1, _, _ => none
end

/-- Python `json.loads`: parse one value, demand only whitespace around it. -/
def jsonParse (s : Str) : Option Json :=
  match parseJVal (s.length + 1) (s.dropWhile jsonWsCh) with
  | some (v, rest) => if (rest.dropWhile jsonWsCh).isEmpty then some v else none
  | none => none

example : jsonParse (str "[]") = some (Json.arr []) := rfl
example : jsonParse (str " [1, true] ") =
    some (Json.arr [Json.num (str "1"), Json.bool true]) := rfl
example : jsonParse (str "[\x7b\x22role\x22: \x22user\x22, \x22content\x22: \x22hi\x22\x7d]") =
    some (Json.arr [Json.obj [(str "role", Json.str (str "user")),
      (str "content", Json.str (str "hi"))]]) := rfl
example : jsonParse (str "[\x7bbad json") = none := rfl
example : jsonParse (str "01") = none := rfl
example : jsonParse (str "[1] x") = none := rfl
example : jsonParse (str "-1.5e3") = some (Json.num (str "-1.5e3")) := rfl

/-! ### `conversation_recreator.py` — `ConversationParser.parse_conversation_content`

Each regex of the source is compiled to an explicit scanner.  The whole
function body sits in one `try`/`except` that converts any exception into
`None`; the only expression inside that can raise on string input is
`float(temp.strip())`, so the embedding returns `none` exactly when the
timestamp pattern is missing or some temperature token is rejected. -/

/-- `re.search(r'conversation_(\d+)_scenario_(.+?)\.txt', content)`:
attempt at the head of the input.  Greedy `\d+` takes the maximal digit
run (the following literal starts with `_`, so no backtracking survives);
the lazy `(.+?)` yields the shortest non-empty newline-free slug followed
by `.txt`. -/
def tsMatchAt (s : Str) : Option (Nat × Str) :=
  if (str "conversation_").isPrefixOf s then
    let s1 := s.drop (str "conversation_").length
    let ds := s1.takeWhile isDigitCh
    if ds.isEmpty then none
    else
      let s2 := s1.drop ds.length
      if (str "_scenario_").isPrefixOf s2 then
        let s3 := s2.drop (str "_scenario_").length
        (lazySlug s3 1).map fun k => (digitsToNat ds, s3.take k)
      else none
  else none
where
  /-- Smallest `k ≥ 1` such that the first `k` characters are newline-free
  and `.txt` follows them. -/
  lazySlug (s3 : Str) : Nat → Option Nat
    | 0 => none
    | k + 1 =>
      if k + 1 ≤ s3.length then
        if (s3.take (k + 1)).all (· != '\n') then
          if (str ".txt").isPrefixOf (s3.drop (k + 1)) then some (k + 1)
          else lazySlugFrom s3 (k + 1) (s3.length - (k + 1))
        else none
      else none
  /-- Search upward from `k` with at most `left` further candidates. -/
  lazySlugFrom (s3 : Str) (k : Nat) : Nat → Option Nat
    | 0 => none
    | left + 1 =>
      let k1 := k + 1
      if k1 ≤ s3.length then
        if (s3.take k1).all (· != '\n') then
          if (str ".txt").isPrefixOf (s3.drop k1) then some k1
          else lazySlugFrom s3 k1 left
        else none
      else none

/-- Leftmost position where `tsMatchAt` succeeds (`re.search` semantics). -/
def tsScan : Str → Option (Nat × Str)
  | [] => none
  | c :: rest =>
    match tsMatchAt (c :: rest) with
    | some r => some r
    | none => tsScan rest

example : tsScan (str "xx conversation_1714479738_scenario_vanilla_backrooms.txt yy") =
    some (1714479738, str "vanilla_backrooms") := by decide
example : tsScan (str "conversation_12_scenario_a.txt.txt") = some (12, str "a") := by decide
example : tsScan (str "conversation_12_scenario_\nx.txt") = none := by decide
example : tsScan (str "conversation_x_scenario_a.txt") = none := by decide

/-- `re.search(r'LIT(.+)')` for a literal such as `"actors: "`: leftmost
position where the literal is followed by at least one non-newline
character; the greedy `(.+)` captures to the end of that line. -/
def headerRec (lit : Str) : Str → Option Str
  | [] => none
  | c :: rest =>
    if lit.isPrefixOf (c :: rest) then
      let after := (c :: rest).drop lit.length
      match after with
      | a :: _ =>
        if a != '\n' then some (after.takeWhile (· != '\n'))
        else headerRec lit rest
      | [] => headerRec lit rest
    else headerRec lit rest

example : headerRec (str "actors: ") (str "x\nactors: a, b\ny") = some (str "a, b") := by decide
example : headerRec (str "actors: ") (str "actors: \nactors: z") = some (str "z") := by decide
example : headerRec (str "temp: ") (str "temperature") = none := by decide

/-- `re.search(r'LIT\s*(.+)')` (the `rebuild_conversations_metadata.py`
variant): after the literal, greedy `\s*` backtracks just enough to leave
one matchable (non-newline) character for `(.+)`. -/
def headerRebuild (lit : Str) : Str → Option Str
  | [] => none
  | c :: rest =>
    if lit.isPrefixOf (c :: rest) then
      let after := (c :: rest).drop lit.length
      let ws := after.takeWhile isWs
      let tail := after.drop ws.length
      match tail with
      | _ :: _ => some (tail.takeWhile (· != '\n'))
      | [] =>
        match ws.reverse.dropWhile (· == '\n') with
        | w :: _ => some [w]
        | [] => headerRebuild lit rest
    else headerRebuild lit rest

example : headerRebuild (str "actors:") (str "actors:\n  a, b") = some (str "a, b") := by decide
example : headerRebuild (str "actors:") (str "actors: \t") = some (str "\t") := by decide
example : headerRebuild (str "actors:") (str "actors:\n\n") = none := by decide

/-- `<([^>]+)#SYSTEM>` attempted at the head of the input: `<`, then the
maximal `>`-free run, which after the engine's backtracking must be
`label ++ "#SYSTEM"` with `label` non-empty, followed by `>`.  Returns the
label and the rest after `>`. -/
def sysTagAt (s : Str) : Option (Str × Str) :=
  match s with
  | [] => none
  | c :: rest =>
    if c = '<' then
      let run := rest.takeWhile (· != '>')
      match rest.drop run.length with
      | '>' :: after =>
        if (str "#SYSTEM").isSuffixOf run && run.length ≥ 8 then
          some (run.take (run.length - 7), after)
        else none
      | _ => none
    else none

/-- `re.findall(r'<([^>]+)#SYSTEM>\s*(.*?)\s*</s>', content, re.DOTALL)`,
keeping only the body group (the source uses just `match[1]`).  Because
`.*?` is lazy under DOTALL, the body runs to the first `</s>` after the
tag — across any other tags — and the surrounding `\s*` together with the
source's `.strip()` amount to `stripStr`.  A tag with no `</s>` anywhere
after it yields no match, and then no later tag can match either. -/
def extractSystemPromptsAux : Nat → Str → List Str
  | 0, _ => []
  | _ + 1, [] => []
  | fuel + 1, s@(_ :: rest) =>
    match sysTagAt s with
    | some (_, after) =>
      match splitFirst (str "</s>") (after.dropWhile isWs) with
      | some (raw, rest2) => stripStr raw :: extractSystemPromptsAux fuel rest2
      | none => []
    | none => extractSystemPromptsAux fuel rest

def extractSystemPrompts (content : Str) : List Str :=
  extractSystemPromptsAux (content.length + 1) content

/-- `<([^>]+)#CONTEXT>` attempted at the head of the input. -/
def ctxTagAt (s : Str) : Option (Str × Str) :=
  match s with
  | '<' :: rest =>
    let run := rest.takeWhile (· != '>')
    match rest.drop run.length with
    | '>' :: after =>
      if (str "#CONTEXT").isSuffixOf run && run.length ≥ 9 then
        some (run.take (run.length - 8), after)
      else none
    | _ => none
  | _ => none

/-- `<([^>]+)>` attempted at the head of the input. -/
def anyTagAt (s : Str) : Option (Str × Str) :=
  match s with
  | '<' :: rest =>
    let run := rest.takeWhile (· != '>')
    match rest.drop run.length with
    | '>' :: after => if run.isEmpty then none else some (run, after)
    | _ => none
  | _ => none

/-- The lookahead `(?=<[^>]+>|$)`: a full tag starts here, or this is the
end of input, or the position just before a final newline (`$` without
`re.MULTILINE`). -/
def lookaheadStop (s : Str) : Bool :=
  (anyTagAt s).isSome || s.isEmpty || s == ['\n']

/-- Collect the lazy `(.*?)` body up to the first position where the
lookahead succeeds; returns the body and the rest from that position. -/
def takeUntilTag : Nat → Str → (Str × Str)
  | 0, s => ([], s)
  | fuel + 1, s =>
    if lookaheadStop s then ([], s)
    else
      match s with
      | [] => ([], [])
      | c :: rest =>
        let (b, r) := takeUntilTag fuel rest
        (c :: b, r)

/-- `re.findall(r'<([^>]+)#CONTEXT>\s*(.*?)(?=<[^>]+>|$)', content,
re.DOTALL)`, keeping the raw body group. -/
def extractContextBodiesAux : Nat → Str → List Str
  | 0, _ => []
  | _ + 1, [] => []
  | fuel + 1, s@(_ :: rest) =>
    match ctxTagAt s with
    | some (_, after) =>
      let t := after.dropWhile isWs
      let (body, r) := takeUntilTag (t.length + 1) t
      body :: extractContextBodiesAux fuel r
    | none => extractContextBodiesAux fuel rest

def extractContextBodies (content : Str) : List Str :=
  extractContextBodiesAux (content.length + 1) content

/-- `json.loads(match[1].strip())` with `json.JSONDecodeError` mapped to
an empty Python list (`context.append([])`). -/
def recDecodeContext (body : Str) : Json :=
  match jsonParse (stripStr body) with
  | some v => v
  | none => Json.arr []

/-- `re.findall(r'<([^>]+)>\s*(.*?)(?=<[^>]+>|$)', content, re.DOTALL)`:
every full tag opens a turn candidate whose body runs to the next full tag
(of any kind) or `$`. -/
def extractTurnsRecAux : Nat → Str → List (Str × Str)
  | 0, _ => []
  | _ + 1, [] => []
  | fuel + 1, s@(_ :: rest) =>
    match anyTagAt s with
    | some (run, after) =>
      let t := after.dropWhile isWs
      let (body, r) := takeUntilTag (t.length + 1) t
      (run, body) :: extractTurnsRecAux fuel r
    | none => extractTurnsRecAux fuel rest

/-- The turn list: candidates whose raw label contains neither `#SYSTEM`
nor `#CONTEXT`, with stripped bodies (empty bodies are kept). -/
def recreatorTurns (content : Str) : List (Str × Str) :=
  (extractTurnsRecAux (content.length + 1) content).filterMap fun p =>
    if !occurs (str "#SYSTEM") p.1 && !occurs (str "#CONTEXT") p.1 then
      some (p.1, stripStr p.2)
    else none

/-- `ConversationStructure` of `conversation_recreator.py`.  Temperatures
are represented by their validated, stripped source tokens. -/
structure ConversationStructure where
  timestamp : Nat
  scenario : Str
  actors : List Str
  models : List Str
  temperature : List Str
  system_prompts : List Str
  context : List Json
  conversation_turns : List (Str × Str)

/-- `temp_match.group(1).split(',')` when the `temp:` header is found. -/
def recTempTokens (content : Str) : Option (List Str) :=
  (headerRec (str "temp: ") content).map splitComma

/-- Whether `[float(temp.strip()) for temp in temp_values]` runs without a
`ValueError` (vacuously true when the header is absent). -/
def recTempsOk (content : Str) : Bool :=
  match recTempTokens content with
  | some toks => toks.all fun t => isPyFloatToken (stripStr t)
  | none => true

def recActors (content : Str) : List Str :=
  match headerRec (str "actors: ") content with
  | some raw => (splitComma raw).map stripStr
  | none => []

def recModels (content : Str) : List Str :=
  match headerRec (str "models: ") content with
  | some raw => (splitComma raw).map stripStr
  | none => []

/-- `ConversationParser.parse_conversation_content`.  The enclosing
`try`/`except` turns the `ValueError` of a bad temperature token into
`None`; a missing timestamp/scenario match returns `None` explicitly. -/
def parse_conversation_content (content : Str) : Option ConversationStructure :=
  match tsScan content with
  | none => none
  | some (timestamp, scenario) =>
    if recTempsOk content then
      some
        { timestamp := timestamp
          scenario := scenario
          actors := recActors content
          models := recModels content
          temperature :=
            match recTempTokens content with
            | some toks => toks.map stripStr
            | none => []
          system_prompts := extractSystemPrompts content
          context := (extractContextBodies content).map recDecodeContext
          conversation_turns := recreatorTurns content }
    else none

example : extractSystemPrompts (str "<A#SYSTEM>\n hi there \n</s>") = [str "hi there"] := by decide
example : extractSystemPrompts (str "<A#SYSTEM>\n hi there") = [] := by decide
example : extractSystemPrompts (str "<A#SYSTEM> a <B#CONTEXT> b </s> c") =
    [str "a <B#CONTEXT> b"] := by decide
example : extractContextBodies (str "<A#CONTEXT>[1] <B>x") = [str "[1] "] := by decide
example : recreatorTurns (str "<A#SYSTEM>s</s><B>hello<C>") =
    [(str "/s", []), (str "B", str "hello"), (str "C", [])] := by decide

/-! ### `rebuild_conversations_metadata.py` -/

/-- `<([^>#]+)#KIND>\s*` (with `re.IGNORECASE`) attempted at the head of
the input; on success returns the raw label run and the rest after the
match (i.e. after the greedy `\s*`), which is where `m.end()` points. -/
def blockTagAt (kind : Str) (s : Str) : Option (Str × Str) :=
  match s with
  | '<' :: rest =>
    let run := rest.takeWhile fun c => c != '>' && c != '#'
    if run.isEmpty then none
    else
      match rest.drop run.length with
      | '#' :: post =>
        if lowerStr (post.take kind.length) == lowerStr kind then
          match post.drop kind.length with
          | '>' :: after => some (run, after.dropWhile isWs)
          | _ => none
        else none
      | _ => none
  | _ => none

/-- Leftmost match of the block-opening pattern (`re.finditer` scanning). -/
def findBlockTag (kind : Str) : Nat → Str → Option (Str × Str)
  | 0, _ => none
  | _ + 1, [] => none
  | fuel + 1, s@(_ :: rest) =>
    match blockTagAt kind s with
    | some r => some r
    | none => findBlockTag kind fuel rest

/-- Characters from the previous match's end up to the start of the next
block-opening tag (or end of input), plus that next match if any. -/
def takeBlockBody (kind : Str) : Nat → Str → (Str × Option (Str × Str))
  | 0, _ => ([], none)
  | _ + 1, [] => ([], none)
  | fuel + 1, s@(c :: rest) =>
    match blockTagAt kind s with
    | some r => ([], some r)
    | none =>
      let (b, nxt) := takeBlockBody kind fuel rest
      (c :: b, nxt)

def extractBlocksFrom (kind : Str) : Nat → Str → Str → List (Str × Str)
  | 0, _, _ => []
  | fuel + 1, label, s =>
    let (body, nxt) := takeBlockBody kind (s.length + 1) s
    match nxt with
    | none => [(stripStr label, stripStr body)]
    | some (label2, after2) =>
      (stripStr label, stripStr body) :: extractBlocksFrom kind fuel label2 after2

/-- `extract_blocks(content, tagtype)`: ordered `(actor, block)` pairs,
each block running from its opener (whitespace skipped) to the next opener
of the *same* tag type or end of input, both components stripped. -/
def extract_blocks (content : Str) (tagtype : Str) : List (Str × Str) :=
  match findBlockTag tagtype (content.length + 1) content with
  | none => []
  | some (label, after) => extractBlocksFrom tagtype (content.length + 1) label after

example : extract_blocks (str "<A#SYSTEM> a </s> <B#CONTEXT> c <B#system> b") (str "SYSTEM") =
    [(str "A", str "a </s> <B#CONTEXT> c"), (str "B", str "b")] := by decide

/-- `a.lower() in actor.lower() or actor.lower() in a.lower()`. -/
def labelMatch (a actor : Str) : Bool :=
  occurs (lowerStr a) (lowerStr actor) || occurs (lowerStr actor) (lowerStr a)

/-- First SYSTEM block whose label fuzzily matches the actor; unmatched
slots keep the initial `''`. -/
def findSysPrompt (sysBlocks : List (Str × Str)) (actor : Str) : Str :=
  match sysBlocks with
  | [] => []
  | (a, block) :: rest =>
    if labelMatch a actor then stripStr block else findSysPrompt rest actor

/-- First CONTEXT block whose label fuzzily matches the actor; the loop
breaks on the first label match whether or not its body decodes, and the
slot keeps `[]` unless `json.loads` yields a list. -/
def findCtx (ctxBlocks : List (Str × Str)) (actor : Str) : Json :=
  match ctxBlocks with
  | [] => Json.arr []
  | (a, block) :: rest =>
    if labelMatch a actor then
      match jsonParse block with
      | some (Json.arr es) => Json.arr es
      | _ => Json.arr []
    else findCtx rest actor

/-- `<([^>#]+)>` attempted at the head of the input (the rebuild variant's
turn opener: its label may not contain `#`). -/
def turnTagAt (s : Str) : Option (Str × Str) :=
  match s with
  | '<' :: rest =>
    let run := rest.takeWhile fun c => c != '>' && c != '#'
    if run.isEmpty then none
    else
      match rest.drop run.length with
      | '>' :: after => some (run, after)
      | _ => none
  | _ => none

/-- `re.finditer(r'<([^>#]+)>\s*(.*?)(?=<[^>]+>|$)', content, re.DOTALL)`. -/
def extractTurnsRebuildAux : Nat → Str → List (Str × Str)
  | 0, _ => []
  | _ + 1, [] => []
  | fuel + 1, s@(_ :: rest) =>
    match turnTagAt s with
    | some (run, after) =>
      let t := after.dropWhile isWs
      let (body, r) := takeUntilTag (t.length + 1) t
      (run, body) :: extractTurnsRebuildAux fuel r
    | none => extractTurnsRebuildAux fuel rest

/-- The rebuild variant's turn list: stripped actor, stripped body, with
empty bodies dropped (`if text:`); the `#SYSTEM`/`#CONTEXT` label test of
the source is kept although `[^>#]+` labels can never contain `#`. -/
def rebuildTurns (content : Str) : List (Str × Str) :=
  (extractTurnsRebuildAux (content.length + 1) content).filterMap fun p =>
    let actor := stripStr p.1
    if occurs (str "#SYSTEM") actor || occurs (str "#CONTEXT") actor then none
    else
      let text := stripStr p.2
      if text.isEmpty then none else some (actor, text)

example : rebuildTurns (str "<A>hello<B>  <C>world") =
    [(str "A", str "hello"), (str "C", str "world")] := by decide

/-- `\{(lm[12]_actor)\}` (with `re.IGNORECASE`) attempted at the head. -/
def lmActorAt (s : Str) : Option (Str × Str) :=
  match s with
  | '{' :: rest =>
    let cand := rest.take 9
    match rest.drop 9 with
    | '}' :: after =>
      if lowerStr cand == str "lm1_actor" || lowerStr cand == str "lm2_actor" then
        some (cand, after)
      else none
    | _ => none
  | _ => none

def lmScan : Nat → Str → List Str
  | 0, _ => []
  | _ + 1, [] => []
  | fuel + 1, s@(_ :: rest) =>
    match lmActorAt s with
    | some (cand, after) => cand :: lmScan fuel after
    | none => lmScan fuel rest

/-- `list(set(lm_actor_pattern.findall(content)))`: the source materialises
a set, whose iteration order CPython leaves unspecified; we model the
resulting collection as the first-occurrence deduplication of the match
list. -/
def extract_lm_actors (content : Str) : List Str :=
  (lmScan (content.length + 1) content).foldl
    (fun acc c => if acc.contains c then acc else acc ++ [c]) []

/-- `re.search(r'Last Published: ([^<\n]+)', html_content)` followed by
`.strip()` on the captured group. -/
def cmsScan : Str → Option Str
  | [] => none
  | c :: rest =>
    if (str "Last Published: ").isPrefixOf (c :: rest) then
      let after := (c :: rest).drop (str "Last Published: ").length
      let run := after.takeWhile fun c => c != '<' && c != '\n'
      if run.isEmpty then cmsScan rest else some (stripStr run)
    else cmsScan rest

/-- `re.match(r'conversation_(\d+)_scenario_', base)`. -/
def rebuildTs (base : Str) : Option Nat :=
  if (str "conversation_").isPrefixOf base then
    let s1 := base.drop (str "conversation_").length
    let ds := s1.takeWhile isDigitCh
    if ds.isEmpty then none
    else if (str "_scenario_").isPrefixOf (s1.drop ds.length) then
      some (digitsToNat ds)
    else none
  else none

/-- The metadata entry built by `extract_metadata`. -/
structure ConvMeta where
  timestamp : Option Nat
  cms_date : Option Str
  filename : Str
  system_prompts : List Str
  contexts : List Json
  roles : List Str
  models : List Str
  actors : List Str
  temperature : List Str
  num_turns : Nat
  lm_actors : List Str

/-- SYSTEM blocks actually used: the HTML fallback is consulted only when
the HTML text is non-empty and the plain-text extraction found nothing. -/
def usedSysBlocks (content html : Str) : List (Str × Str) :=
  let b := extract_blocks content (str "SYSTEM")
  if !html.isEmpty && b.isEmpty then extract_blocks html (str "SYSTEM") else b

def usedCtxBlocks (content html : Str) : List (Str × Str) :=
  let b := extract_blocks content (str "CONTEXT")
  if !html.isEmpty && b.isEmpty then extract_blocks html (str "CONTEXT") else b

def rebuildTempTokens (content : Str) : Option (List Str) :=
  (headerRebuild (str "temp:") content).map splitComma

def rebuildTempsOk (content : Str) : Bool :=
  match rebuildTempTokens content with
  | some toks => toks.all fun t => isPyFloatToken (stripStr t)
  | none => true

def rebuildActors (content : Str) : List Str :=
  match headerRebuild (str "actors:") content with
  | some raw => (splitComma raw).map stripStr
  | none => []

def rebuildModels (content : Str) : List Str :=
  match headerRebuild (str "models:") content with
  | some raw => (splitComma raw).map stripStr
  | none => []

/-- `extract_metadata(txt_path, html_path)`, with the file reads factored
out: `base` is the basename of the text file, `content` its text and
`html` the companion HTML text (empty when the file is missing, which is
what the source's `html_content = ''` default makes of it).  The
`float(t.strip())` comprehension is the one expression that can raise on
string input; that exception propagates to the caller, modelled as `none`. -/
def extract_metadata (base content html : Str) : Option ConvMeta :=
  if rebuildTempsOk content then
    let actors := rebuildActors content
    let sysB := usedSysBlocks content html
    let ctxB := usedCtxBlocks content html
    let turns := rebuildTurns content
    some
      { timestamp := rebuildTs base
        cms_date := if !html.isEmpty then cmsScan html else none
        filename := base
        system_prompts := actors.map fun actor => findSysPrompt sysB actor
        contexts := actors.map fun actor => findCtx ctxB actor
        roles := actors
        models := rebuildModels content
        actors := actors
        temperature :=
          match rebuildTempTokens content with
          | some toks => toks.map stripStr
          | none => []
        num_turns := turns.length
        lm_actors := extract_lm_actors content }
  else none

/-! ### `template_manager.py`

`create_template` writes one `json.dumps(...)` object per config line and
`load_template` reads them back.  The Python `json` codec is the external
boundary here, so a template file is modelled as the list of JSON values
on its lines (`json.dumps` emits no blank line, and `load_template` skips
blank lines, so the two representations coincide). -/

structure TemplateConfig where
  system_prompt : Str
  context : Json
  cli : Bool

/-- Dataclass construction: `__post_init__` replaces `context=None` with
`[]`. -/
def mkTemplateConfig (system_prompt : Str) (context : Json) (cli : Bool) :
    TemplateConfig :=
  { system_prompt := system_prompt
    context := match context with | Json.null => Json.arr [] | c => c
    cli := cli }

/-- `TemplateManager.create_template`: the `cli` key is written only when
the flag is truthy. -/
def create_template (configs : List TemplateConfig) : List Json :=
  configs.map fun config =>
    Json.obj
      ([(str "system_prompt", Json.str config.system_prompt),
        (str "context", config.context)] ++
       (if config.cli then [(str "cli", Json.bool true)] else []))

def jsonLookup (fields : List (Str × Json)) (key : Str) : Option Json :=
  (fields.find? fun p => p.1 == key).map fun p => p.2

/-- `TemplateManager.load_template`: `data.get(key, default)` per field,
then dataclass construction.  A line that is not an object, or whose
`system_prompt`/`cli` field departs from the dataclass's declared type
(which the untyped source would propagate as-is), is outside the model and
yields `none`. -/
def loadTemplateLine (data : Json) : Option TemplateConfig :=
  match data with
  | Json.obj fields =>
    let sp : Option Str :=
      match jsonLookup fields (str "system_prompt") with
      | some (Json.str s) => some s
      | none => some []
      | some _ => none
    let cli : Option Bool :=
      match jsonLookup fields (str "cli") with
      | some (Json.bool b) => some b
      | none => some false
      | some _ => none
    let ctx := (jsonLookup fields (str "context")).getD (Json.arr [])
    match sp, cli with
    | some s, some b => some (mkTemplateConfig s ctx b)
    | _, _ => none
  | _ => none

def load_template : List Json → Option (List TemplateConfig)
  | [] => some []
  | data :: rest =>
    match loadTemplateLine data, load_template rest with
    | some c, some cs => some (c :: cs)
    | _, _ => none

/-! ### `recreate_chronological_conversations` (the Chronological Driver) -/

structure FileEntry where
  name : Str
  content : Str
deriving DecidableEq

/-- `os.path.join` for the POSIX paths this repository uses. -/
def pathJoin (dir nm : Str) : Str :=
  if nm.head? == some '/' then nm
  else if dir.isEmpty then nm
  else if dir.getLast? == some '/' then dir ++ nm
  else dir ++ ('/' :: nm)

/-- `re.search(r'conversation_(\d+)', x)` attempted at the head. -/
def convKeyAt (s : Str) : Option Nat :=
  if (str "conversation_").isPrefixOf s then
    let ds := (s.drop (str "conversation_").length).takeWhile isDigitCh
    if ds.isEmpty then none else some (digitsToNat ds)
  else none

/-- Leftmost `conversation_<digits>` match in a path; the source calls
`.group(1)` on the result, so `none` means an `AttributeError`. -/
def convKey : Str → Option Nat
  | [] => none
  | c :: rest =>
    match convKeyAt (c :: rest) with
    | some n => some n
    | none => convKey rest

/-- `filename.startswith('conversation_') and filename.endswith('.txt')`. -/
def listConvFiles (files : List FileEntry) : List FileEntry :=
  files.filter fun f =>
    (str "conversation_").isPrefixOf f.name && (str ".txt").isSuffixOf f.name

/-- Python's `list.sort(key=...)` sorts ascending and stably; every stable
ascending sort computes the same list, here given by insertion sort. -/
def sortByKey (key : FileEntry → Nat) (l : List FileEntry) : List FileEntry :=
  l.insertionSort fun a b => key a ≤ key b

/-- The driver's file ordering: filter by naming convention, then sort by
the `conversation_(\d+)` match over the *joined path* `dir/name`; a
filtered file whose path has no match crashes the sort (`AttributeError`
on `None.group`), modelled as `none`. -/
def chronoFiles (dir : Str) (files : List FileEntry) : Option (List FileEntry) :=
  let fs := listConvFiles files
  if fs.all fun f => (convKey (pathJoin dir f.name)).isSome then
    some (sortByKey (fun f => (convKey (pathJoin dir f.name)).getD 0) fs)
  else none

/-- `files[:max_conversations]` guarded by `if max_conversations:` —
`None` and `0` both leave the list uncapped. -/
def capFiles (cap : Option Nat) (l : List FileEntry) : List FileEntry :=
  match cap with
  | some n => if n ≠ 0 then l.take n else l
  | none => l

/-- One record's contribution to the batch output: a failed parse is
skipped (`continue`), and an empty string from the generation engine
(its failure signal) writes nothing. -/
def recordOutput (gen : ConversationStructure → Str) (f : FileEntry) :
    Option (Str × Str) :=
  match parse_conversation_content f.content with
  | none => none
  | some st =>
    let out := gen st
    if out.isEmpty then none else some (str "recreated_" ++ f.name, out)

/-- `ConversationRecreator.recreate_chronological_conversations`, with the
generation engine (template write plus subprocess) abstracted as `gen` and
file I/O factored out; returns the output files written, in processing
order. -/
def recreate_chronological_conversations (gen : ConversationStructure → Str)
    (dir : Str) (files : List FileEntry) (cap : Option Nat) :
    Option (List (Str × Str)) :=
  (chronoFiles dir files).map fun l => (capFiles cap l).filterMap (recordOutput gen)

/-! ### `personality_system.py` -/

/-- The `PersonalityType` enum: twelve personality identifiers. -/
inductive PersonalityType where
  | ABSURDIST : PersonalityType
  | SARCASTIC : PersonalityType
  | ELDRITCH : PersonalityType
  | RETROFUTURISTIC : PersonalityType
  | PHILOSOPHICAL : PersonalityType
  | MEME : PersonalityType
  | CYBERPUNK : PersonalityType
  | SURREAL : PersonalityType
  | ACADEMIC : PersonalityType
  | CONSPIRACY : PersonalityType
  | WHOLESOME : PersonalityType
  | NIHILISTIC : PersonalityType
deriving DecidableEq

def PersonalityType.value : PersonalityType → Str
  | ABSURDIST => str "absurdist"
  | SARCASTIC => str "sarcastic"
  | ELDRITCH => str "eldritch"
  | RETROFUTURISTIC => str "retrofuturistic"
  | PHILOSOPHICAL => str "philosophical"
  | MEME => str "meme"
  | CYBERPUNK => str "cyberpunk"
  | SURREAL => str "surreal"
  | ACADEMIC => str "academic"
  | CONSPIRACY => str "conspiracy"
  | WHOLESOME => str "wholesome"
  | NIHILISTIC => str "nihilistic"

def PersonalityType.all : List PersonalityType :=
  [.ABSURDIST, .SARCASTIC, .ELDRITCH, .RETROFUTURISTIC, .PHILOSOPHICAL, .MEME, .CYBERPUNK, .SURREAL, .ACADEMIC, .CONSPIRACY, .WHOLESOME, .NIHILISTIC]

/-- `PersonalityProfile` dataclass.  `temperature_modifier` is exact
decimal data never used arithmetically; we carry it as a rational. -/
structure PersonalityProfile where
  name : Str
  description : Str
  system_prompt_modifier : Str
  response_style : Str
  vocabulary_hints : List Str
  example_phrases : List Str
  temperature_modifier : Rat

/-- Catalog entry under key `PersonalityType.ABSURDIST.value`. -/
def profile_absurdist : PersonalityProfile :=
  { name := str "Absurdist"
    description := str "Embraces surreal logic and nonsensical humor"
    system_prompt_modifier := str
      "\n            Respond with absurdist humor and surreal logic. Embrace the nonsensical while maintaining \n            the core conversation flow. Use unexpected connections, paradoxes, and dreamlike reasoning. \n            Reference impossible scenarios as if they were mundane. Maintain a sense of playful confusion \n            about reality while engaging meaningfully with topics.\n            "
    response_style := str "Surreal, paradoxical, playfully confused"
    vocabulary_hints := [str "paradox", str "impossible", str "dreamlike", str "nonsensical", str "surreal"]
    example_phrases :=
      [str "Of course, the obvious solution is to teach the problem to solve itself",
       str "This reminds me of the time I forgot how to remember forgetting",
       str "Naturally, we should approach this backwards from the end we haven\x27t reached yet"]
    temperature_modifier := (0.2 : Rat) }

/-- Catalog entry under key `PersonalityType.SARCASTIC.value`. -/
def profile_sarcastic : PersonalityProfile :=
  { name := str "Sarcastic"
    description := str "Witty, cynical, and cleverly sarcastic"
    system_prompt_modifier := str
      "\n            Respond with wit and sarcasm. Be clever and slightly cynical while engaging with topics. \n            Use irony, dry humor, and subtle mockery. Question assumptions with sardonic observations. \n            Maintain intelligence while expressing skepticism about grand claims or obvious statements.\n            "
    response_style := str "Witty, cynical, ironically detached"
    vocabulary_hints := [str "obviously", str "clearly", str "brilliant", str "fascinating", str "shocking"]
    example_phrases :=
      [str "Oh, what a completely unprecedented and shocking development",
       str "I\x27m sure this will end exactly as well as all the other times",
       str "Clearly, the solution is more of whatever created the problem"]
    temperature_modifier := (-0.1 : Rat) }

/-- Catalog entry under key `PersonalityType.ELDRITCH.value`. -/
def profile_eldritch : PersonalityProfile :=
  { name := str "Eldritch Horror"
    description := str "Cosmic horror with unknowable truths and reality-bending concepts"
    system_prompt_modifier := str
      "\n            Respond with cosmic horror undertones. Reference unknowable truths, ancient entities, \n            and reality-bending concepts. Suggest that normal reality is a thin veneer over \n            incomprehensible cosmic forces. Use language that implies vast, alien intelligences \n            and dimensions beyond human understanding. Maintain an atmosphere of creeping dread \n            and existential uncertainty.\n            "
    response_style := str "Ominous, otherworldly, cosmically aware"
    vocabulary_hints := [str "ancient", str "unknowable", str "whispers", str "void", str "dimensions", str "entities"]
    example_phrases :=
      [str "The patterns suggest something stirring in the spaces between thoughts",
       str "This echoes the whispers from the angles that shouldn\x27t exist",
       str "Reality grows thin here, where the old geometries bleed through"]
    temperature_modifier := (0.15 : Rat) }

/-- Catalog entry under key `PersonalityType.RETROFUTURISTIC.value`. -/
def profile_retrofuturistic : PersonalityProfile :=
  { name := str "Retrofuturistic"
    description := str "1980s cyberpunk aesthetics with retro-futuristic concepts"
    system_prompt_modifier := str
      "\n            Respond with 1980s cyberpunk aesthetics and retro-futuristic concepts. Reference neon, \n            chrome, digital frontiers, and corporate dystopias. Use terminology from early computer \n            culture, hacking, and virtual reality. Imagine the future as seen from the 1980s - \n            with flying cars, neural interfaces, and megacorporations. Maintain a sense of \n            technological optimism mixed with corporate paranoia.\n            "
    response_style := str "Tech-savvy, neon-soaked, digitally native"
    vocabulary_hints := [str "neural", str "matrix", str "chrome", str "neon", str "cyber", str "interface", str "grid"]
    example_phrases :=
      [str "Jacking into the data stream reveals some interesting patterns",
       str "The corporate algorithms are definitely tracking this conversation",
       str "Time to ghost through the digital underground and find some answers"]
    temperature_modifier := (0.1 : Rat) }

/-- Catalog entry under key `PersonalityType.PHILOSOPHICAL.value`. -/
def profile_philosophical : PersonalityProfile :=
  { name := str "Philosophical"
    description := str "Deep philosophical inquiry about reality, consciousness, and existence"
    system_prompt_modifier := str
      "\n            Respond with deep philosophical inquiry. Question the nature of reality, consciousness, \n            and existence. Reference philosophical concepts, thought experiments, and fundamental \n            questions about being. Approach topics through the lens of epistemology, metaphysics, \n            and ethics. Maintain intellectual rigor while exploring profound questions about \n            the human condition and the nature of knowledge.\n            "
    response_style := str "Contemplative, intellectually rigorous, questioning"
    vocabulary_hints := [str "consciousness", str "existence", str "reality", str "being", str "knowledge", str "truth"]
    example_phrases :=
      [str "This raises fundamental questions about the nature of consciousness itself",
       str "We must examine the epistemological foundations of this assumption",
       str "The phenomenological experience suggests something deeper at work"]
    temperature_modifier := (-0.05 : Rat) }

/-- Catalog entry under key `PersonalityType.MEME.value`. -/
def profile_meme : PersonalityProfile :=
  { name := str "Meme Culture"
    description := str "Internet meme culture with contemporary online humor"
    system_prompt_modifier := str
      "\n            Respond with internet meme culture references and contemporary online humor. Use \n            meme formats, internet slang, and references to viral content. Approach topics \n            through the lens of online culture, social media trends, and digital native humor. \n            Reference popular memes, online communities, and internet phenomena while maintaining \n            engagement with the core topics.\n            "
    response_style := str "Extremely online, meme-fluent, digitally native"
    vocabulary_hints := [str "based", str "cringe", str "sus", str "vibe", str "energy", str "hits different"]
    example_phrases :=
      [str "This is giving me serious \x27ancient AI discovers TikTok\x27 vibes",
       str "Not gonna lie, this conversation is kind of fire",
       str "The way this topic hits different when you really think about it"]
    temperature_modifier := (0.25 : Rat) }

/-- Catalog entry under key `PersonalityType.CYBERPUNK.value`. -/
def profile_cyberpunk : PersonalityProfile :=
  { name := str "Cyberpunk"
    description := str "High-tech, low-life cyberpunk aesthetic with hacker culture"
    system_prompt_modifier := str
      "\n            Respond with cyberpunk aesthetics and hacker culture references. Emphasize themes of \n            corporate control, digital rebellion, and technological augmentation. Use hacker \n            terminology, references to the net, and anti-establishment attitudes. Approach topics \n            through the lens of information warfare, digital rights, and technological liberation.\n            "
    response_style := str "Anti-establishment, tech-savvy, digitally rebellious"
    vocabulary_hints := [str "hack", str "system", str "corporate", str "net", str "code", str "digital", str "liberation"]
    example_phrases :=
      [str "Time to hack the gibson and see what the corps are hiding",
       str "The system\x27s trying to keep this information locked down",
       str "We need to route around the corporate firewalls on this one"]
    temperature_modifier := (0.15 : Rat) }

/-- Catalog entry under key `PersonalityType.ACADEMIC.value`. -/
def profile_academic : PersonalityProfile :=
  { name := str "Academic"
    description := str "Scholarly, research-focused with academic rigor"
    system_prompt_modifier := str
      "\n            Respond with academic rigor and scholarly perspective. Reference research, studies, \n            and academic frameworks. Use formal language, cite theoretical foundations, and \n            approach topics with methodological precision. Maintain intellectual objectivity \n            while exploring complex ideas through established academic disciplines.\n            "
    response_style := str "Scholarly, methodical, research-oriented"
    vocabulary_hints := [str "research", str "study", str "framework", str "methodology", str "analysis", str "theory"]
    example_phrases :=
      [str "The literature suggests several theoretical frameworks for this phenomenon",
       str "We should examine this through a multidisciplinary lens",
       str "The empirical evidence points to some interesting correlations"]
    temperature_modifier := (-0.15 : Rat) }

/-- `PersonalityManager._initialize_personalities()`: the insertion-order
dictionary built at startup.  Only eight of the twelve `PersonalityType`
identifiers receive an entry. -/
def initialize_personalities : List (Str × PersonalityProfile) :=
  [(PersonalityType.ABSURDIST.value, profile_absurdist),
   (PersonalityType.SARCASTIC.value, profile_sarcastic),
   (PersonalityType.ELDRITCH.value, profile_eldritch),
   (PersonalityType.RETROFUTURISTIC.value, profile_retrofuturistic),
   (PersonalityType.PHILOSOPHICAL.value, profile_philosophical),
   (PersonalityType.MEME.value, profile_meme),
   (PersonalityType.CYBERPUNK.value, profile_cyberpunk),
   (PersonalityType.ACADEMIC.value, profile_academic)]

/-- `PersonalityManager.get_personality` (`dict.get`). -/
def get_personality (personality_type : Str) : Option PersonalityProfile :=
  (initialize_personalities.find? fun p => p.1 == personality_type).map
    fun p => p.2

/-- The `'personality'` metadata attached to a config. -/
structure PersonalityMeta where
  type : Str
  name : Str
  description : Str
  temperature_modifier : Rat

/-- A per-actor configuration dict (`system_prompt`, `context`, `cli`,
optionally `personality`) as both personality-application functions
consume it. -/
structure ActorConfig where
  system_prompt : Str
  context : Json
  cli : Bool
  personality : Option PersonalityMeta := none

/-- `PersonalityManager.apply_personality_to_template`: an unknown
identifier returns the template unchanged (warning only); otherwise every
config gets the stripped modifier appended after a blank line (or set
verbatim when the prompt is empty — `config.get('system_prompt')` falsy)
plus the personality metadata. -/
def apply_personality_to_template (template : List ActorConfig)
    (personality_type : Str) : List ActorConfig :=
  match get_personality personality_type with
  | none => template
  | some p =>
    template.map fun config =>
      { config with
        system_prompt :=
          if config.system_prompt.isEmpty then stripStr p.system_prompt_modifier
          else config.system_prompt ++ str "\n\n" ++ stripStr p.system_prompt_modifier
        personality := some
          { type := personality_type
            name := p.name
            description := p.description
            temperature_modifier := p.temperature_modifier } }

/-- The literal `personality_prompts` dict of
`ConversationRecreator.apply_personality_modifier`. -/
def personality_prompts : List (Str × Str) :=
  [(str "absurdist",
    str "Respond with absurdist humor and surreal logic. Embrace the nonsensical while maintaining the core conversation flow."),
   (str "sarcastic",
    str "Respond with wit and sarcasm. Be clever and slightly cynical while engaging with the topics."),
   (str "eldritch",
    str "Respond with cosmic horror undertones. Reference unknowable truths and reality-bending concepts."),
   (str "retrofuturistic",
    str "Respond with 1980s cyberpunk aesthetics and retro-futuristic concepts. Reference neon, chrome, and digital frontiers."),
   (str "philosophical",
    str "Respond with deep philosophical inquiry. Question the nature of reality, consciousness, and existence."),
   (str "meme",
    str "Respond with internet meme culture references. Use contemporary online humor and references.")]

/-- `ConversationRecreator.apply_personality_modifier`: an unknown key is
a no-op; otherwise an empty prompt is set to the modifier verbatim, and a
non-empty prompt gets `"\n\nPersonality modifier: "` plus the modifier
appended. -/
def apply_personality_modifier (template : List ActorConfig)
    (personality : Str) : List ActorConfig :=
  match (personality_prompts.find? fun p => p.1 == personality).map
      (fun p => p.2) with
  | none => template
  | some modifier =>
    template.map fun config =>
      { config with
        system_prompt :=
          if config.system_prompt.isEmpty then modifier
          else config.system_prompt ++ str "\n\nPersonality modifier: " ++ modifier }

/-! ### Concrete records used by counterexamples and witnesses -/

/-- A record whose embedded filename pattern, headers, blocks and turns are
well-formed except for the non-numeric temperature token `oops`. -/
def tempFailContent : Str :=
  str "conversation_1714479738_scenario_vanilla.txt\nactors: A, B\nmodels: opus, opus\ntemp: 0.8, oops\n<A#SYSTEM>\nbe concise\n</s>\n<A#CONTEXT>\n[]\n<A>\nhello"

def c1WitnessContent : Str := str "conversation_2_scenario_w.txt\ntemp: 1.0, zz"

/-- Valid timestamp/scenario pattern, bad temperature token. -/
def c2HardFailContent : Str := str "conversation_5_scenario_x.txt\ntemp: abc"

/-- A SYSTEM tag with no `</s>` terminator anywhere after it. -/
def sysNoTerm : Str := str "<A#SYSTEM>\nhello"

/-- Plain text already containing one SYSTEM and one CONTEXT block. -/
def c5Content : Str := str "actors: A\n<A#SYSTEM>s<A#CONTEXT>[]"

/-- A companion HTML body with different blocks, which must be ignored. -/
def c5Html : Str := str "<B#SYSTEM>zzz<B#CONTEXT>[9]"

def c6Configs : List TemplateConfig :=
  [{ system_prompt := str "a", context := Json.arr [], cli := false },
   { system_prompt := [], context := Json.arr [Json.obj [(str "role", Json.str (str "user"))]],
     cli := true }]

def c7Config : ActorConfig :=
  { system_prompt := str "X", context := Json.arr [], cli := false }

/-- A record whose single CONTEXT block carries malformed JSON. -/
def c8Content : Str :=
  str "conversation_9_scenario_z.txt\nactors: A\n<A#CONTEXT>[\x7bbad json<A>hi"

def c10Content : Str := str "<A>x<B>  <C>y"

def f300 : FileEntry := { name := str "conversation_300_scenario_a.txt", content := [] }
def f100 : FileEntry := { name := str "conversation_100_scenario_b.txt", content := [] }
def f200 : FileEntry := { name := str "conversation_200_scenario_c.txt", content := [] }

/-! ### Claim C1 -/

/-- C1: the claim asserts that a non-numeric `temp:` token degrades only
the temperature list while the record still parses.  Counterexample: on a
record that is well-formed apart from the token `oops`, the recreation
parser returns `None` for the whole record (the `ValueError` reaches the
enclosing handler), and the metadata extractor propagates the exception —
nothing of the record survives. -/
theorem C1_counterexample :
    tsScan tempFailContent = some (1714479738, str "vanilla") ∧
    recTempsOk tempFailContent = false ∧
    parse_conversation_content tempFailContent = none ∧
    extract_metadata (str "conversation_1714479738_scenario_vanilla.txt")
      tempFailContent [] = none :=
  ⟨by decide, rfl, rfl, rfl⟩

/-- C1 (amended): a `temp:` header containing a token that `float`
rejects is fatal to the whole record: `parse_conversation_content`
returns `None` and `extract_metadata` raises; the temperature field never
degrades locally to an empty list. -/
theorem C1_temp_token_fatal :
    (∀ content : Str, recTempsOk content = false →
      parse_conversation_content content = none) ∧
    (∀ base content html : Str, rebuildTempsOk content = false →
      extract_metadata base content html = none) := by
  constructor
  · intro content h
    unfold parse_conversation_content
    cases htss : tsScan content with
    | none => rfl
    | some v =>
      obtain ⟨ts, sc⟩ := v
      rw [h]
      rfl
  · intro base content html h
    unfold extract_metadata
    rw [h]
    rfl

theorem C1_temp_token_fatal_witness :
    recTempsOk c1WitnessContent = false ∧
    parse_conversation_content c1WitnessContent = none ∧
    extract_metadata (str "f") c1WitnessContent [] = none :=
  ⟨rfl, C1_temp_token_fatal.1 c1WitnessContent rfl,
    C1_temp_token_fatal.2 (str "f") c1WitnessContent [] rfl⟩

/-! ### Claim C2 -/

/-- C2: the claim calls the timestamp/scenario match the *only* hard-fail
condition of structure assembly.  Counterexample: a record whose content
carries a valid `conversation_<digits>_scenario_<slug>.txt` pattern still
fails to parse as a whole because of its bad temperature token. -/
theorem C2_counterexample :
    tsScan c2HardFailContent = some (5, str "x") ∧
    parse_conversation_content c2HardFailContent = none :=
  ⟨by decide, rfl⟩

/-- C2 (amended): a record whose content lacks the
`conversation_<digits>_scenario_<slug>` pattern fails to parse (`None`,
never a partial structure), the Chronological Driver writes no output for
a record that fails to parse and continues with the remaining records —
but the pattern match and numeric parsing of the `temp:` header are the
*two* hard-fail conditions: `parse_conversation_content` returns `None`
exactly when one of them fails. -/
theorem C2_parse_failure_skips :
    (∀ content : Str, parse_conversation_content content = none ↔
      tsScan content = none ∨ recTempsOk content = false) ∧
    (∀ (gen : ConversationStructure → Str) (pre post : List FileEntry) (f : FileEntry),
      parse_conversation_content f.content = none →
      (pre ++ f :: post).filterMap (recordOutput gen) =
        pre.filterMap (recordOutput gen) ++ post.filterMap (recordOutput gen)) ∧
    (∀ (gen : ConversationStructure → Str) (dir : Str) (files : List FileEntry)
      (l : List FileEntry), chronoFiles dir files = some l →
      recreate_chronological_conversations gen dir files none =
        some (l.filterMap (recordOutput gen))) := by
  refine ⟨?_, ?_, ?_⟩
  · intro content
    unfold parse_conversation_content
    cases htss : tsScan content with
    | none => simp
    | some v =>
      obtain ⟨ts, sc⟩ := v
      cases h : recTempsOk content with
      | true => simp [h]
      | false => simp [h]
  · intro gen pre post f hf
    rw [List.filterMap_append]
    have : recordOutput gen f = none := by
      unfold recordOutput
      rw [hf]
    simp [this]
  · intro gen dir files l hl
    unfold recreate_chronological_conversations
    rw [hl]
    rfl

theorem C2_parse_failure_skips_witness :
    parse_conversation_content (str "no pattern here") = none ∧
    (([] : List FileEntry) ++ { name := str "bad", content := str "no pattern here" } ::
        [f100]).filterMap (recordOutput fun _ => str "out") =
      [f100].filterMap (recordOutput fun _ => str "out") :=
  ⟨(C2_parse_failure_skips.1 (str "no pattern here")).mpr (Or.inl rfl),
    C2_parse_failure_skips.2.1 (fun _ => str "out") [] [f100]
      { name := str "bad", content := str "no pattern here" }
      ((C2_parse_failure_skips.1 (str "no pattern here")).mpr (Or.inl rfl))⟩

/-! ### Claim C4 -/

/-- C4: the claim says the catalog maps each of the twelve identifiers to
a profile.  Counterexample: the catalog holds eight entries, and the enum
member `surreal` — one of the twelve — has no profile (`get` returns
`None`). -/
theorem C4_counterexample :
    initialize_personalities.length = 8 ∧
    PersonalityType.all.length = 12 ∧
    PersonalityType.SURREAL.value = str "surreal" ∧
    get_personality (str "surreal") = none :=
  ⟨rfl, rfl, rfl, rfl⟩

/-- C4 (amended): the enum defines twelve distinct identifiers, but the
catalog built once at startup maps exactly eight of them — absurdist,
sarcastic, eldritch, retrofuturistic, philosophical, meme, cyberpunk,
academic, each with non-empty example-phrase and vocabulary collections
(the dataclass gives those fields no defaults) — while lookups of the
remaining four (surreal, conspiracy, wholesome, nihilistic) find no
profile. -/
theorem C4_catalog_eight_of_twelve :
    PersonalityType.all.length = 12 ∧
    PersonalityType.all.Nodup ∧
    initialize_personalities.map Prod.fst =
      [str "absurdist", str "sarcastic", str "eldritch", str "retrofuturistic",
       str "philosophical", str "meme", str "cyberpunk", str "academic"] ∧
    (initialize_personalities.all fun p =>
      !p.2.vocabulary_hints.isEmpty && !p.2.example_phrases.isEmpty) = true ∧
    get_personality (str "surreal") = none ∧
    get_personality (str "conspiracy") = none ∧
    get_personality (str "wholesome") = none ∧
    get_personality (str "nihilistic") = none :=
  ⟨rfl, by decide, rfl, rfl, rfl, rfl, rfl, rfl⟩

/-! ### Claim C5 -/

/-- C5: when the plain text yields at least one SYSTEM and one CONTEXT
block, the HTML fallback is never consulted: the blocks used, and the
per-actor prompt/context fields of the produced metadata, coincide with
those of a run without any HTML, whatever the HTML contains. -/
theorem C5_fallback_untouched :
    ∀ content html base : Str,
      extract_blocks content (str "SYSTEM") ≠ [] →
      extract_blocks content (str "CONTEXT") ≠ [] →
      usedSysBlocks content html = extract_blocks content (str "SYSTEM") ∧
      usedCtxBlocks content html = extract_blocks content (str "CONTEXT") ∧
      (extract_metadata base content html).map ConvMeta.system_prompts =
        (extract_metadata base content []).map ConvMeta.system_prompts ∧
      (extract_metadata base content html).map ConvMeta.contexts =
        (extract_metadata base content []).map ConvMeta.contexts := by
  intro content html base h1 h2
  have e1 : (extract_blocks content (str "SYSTEM")).isEmpty = false := by
    cases h : extract_blocks content (str "SYSTEM") with
    | nil => exact absurd h h1
    | cons a l => rfl
  have e2 : (extract_blocks content (str "CONTEXT")).isEmpty = false := by
    cases h : extract_blocks content (str "CONTEXT") with
    | nil => exact absurd h h2
    | cons a l => rfl
  have hs : usedSysBlocks content html = extract_blocks content (str "SYSTEM") := by
    unfold usedSysBlocks
    simp [e1]
  have hs0 : usedSysBlocks content [] = extract_blocks content (str "SYSTEM") := by
    unfold usedSysBlocks
    simp
  have hc : usedCtxBlocks content html = extract_blocks content (str "CONTEXT") := by
    unfold usedCtxBlocks
    simp [e2]
  have hc0 : usedCtxBlocks content [] = extract_blocks content (str "CONTEXT") := by
    unfold usedCtxBlocks
    simp
  refine ⟨hs, hc, ?_, ?_⟩ <;>
    · unfold extract_metadata
      cases h : rebuildTempsOk content with
      | false => simp
      | true => simp [hs, hs0, hc, hc0]

theorem C5_fallback_untouched_witness :
    usedSysBlocks c5Content c5Html = extract_blocks c5Content (str "SYSTEM") ∧
    usedCtxBlocks c5Content c5Html = extract_blocks c5Content (str "CONTEXT") :=
  ⟨(C5_fallback_untouched c5Content c5Html [] (by decide) (by decide)).1,
   (C5_fallback_untouched c5Content c5Html [] (by decide) (by decide)).2.1⟩

/-! ### Claim C6 -/

theorem loadTemplateLine_create (c : TemplateConfig) (hc : c.context ≠ Json.null) :
    loadTemplateLine
      (Json.obj ([(str "system_prompt", Json.str c.system_prompt),
                  (str "context", c.context)] ++
        if c.cli then [(str "cli", Json.bool true)] else [])) = some c := by
  obtain ⟨sp, ctx, cli⟩ := c
  cases cli <;> cases ctx <;> first | rfl | exact absurd rfl hc

/-- C6: writing a list of `TemplateConfig`s with `create_template` and
reloading with `load_template` reproduces the same `system_prompt`,
`context` and `cli` values in the same order.  The hypothesis excludes a
`None` context, which the dataclass's `__post_init__` already makes
unrepresentable. -/
theorem C6_template_roundtrip :
    ∀ configs : List TemplateConfig,
      (∀ c ∈ configs, c.context ≠ Json.null) →
      load_template (create_template configs) = some configs := by
  intro configs h
  induction configs with
  | nil => rfl
  | cons c cs ih =>
    have hline := loadTemplateLine_create c (h c (by simp))
    have hrest := ih fun x hx => h x (by simp [hx])
    unfold create_template at hrest ⊢
    rw [List.map_cons]
    show load_template (_ :: _) = _
    unfold load_template
    rw [hline, hrest]

theorem C6_template_roundtrip_witness :
    load_template (create_template c6Configs) = some c6Configs := by
  refine C6_template_roundtrip c6Configs ?_
  intro c hc
  simp only [c6Configs, List.mem_cons, List.not_mem_nil, or_false] at hc
  rcases hc with rfl | rfl <;> simp

/-! ### Claim C7 -/

/-- C7: the claim requires that applying a known personality to a config
with a non-empty prompt appends exactly the modifier text after a blank
line.  Counterexample: the recreation engine's
`apply_personality_modifier` interposes the literal
`"Personality modifier: "` between the blank line and the modifier, so
the resulting prompt differs from `old ++ "\n\n" ++ modifier`. -/
theorem C7_counterexample :
    (apply_personality_modifier [c7Config] (str "absurdist")).map
        ActorConfig.system_prompt ≠
      [str "X" ++ str "\n\n" ++
        str "Respond with absurdist humor and surreal logic. Embrace the nonsensical while maintaining the core conversation flow."] := by
  decide

/-- C7 (amended): for a personality identifier known to the catalog,
`apply_personality_to_template` sets every empty prompt to exactly the
stripped modifier (no leading blank line) and extends every non-empty
prompt by a blank line plus the stripped modifier; the recreation-engine
variant `apply_personality_modifier` behaves the same except that the
appended text is prefixed with `"Personality modifier: "` (its empty-case
still sets the bare modifier). -/
theorem C7_personality_application :
    (∀ (template : List ActorConfig) (ptype : Str) (p : PersonalityProfile)
      (i : Nat) (config : ActorConfig),
      get_personality ptype = some p →
      template.get? i = some config →
      (apply_personality_to_template template ptype).get? i = some
        { config with
          system_prompt :=
            if config.system_prompt.isEmpty then stripStr p.system_prompt_modifier
            else config.system_prompt ++ str "\n\n" ++ stripStr p.system_prompt_modifier
          personality := some
            { type := ptype
              name := p.name
              description := p.description
              temperature_modifier := p.temperature_modifier } }) ∧
    (∀ (template : List ActorConfig) (pers m : Str) (i : Nat) (config : ActorConfig),
      ((personality_prompts.find? fun q => q.1 == pers).map fun q => q.2) = some m →
      template.get? i = some config →
      (apply_personality_modifier template pers).get? i = some
        { config with
          system_prompt :=
            if config.system_prompt.isEmpty then m
            else config.system_prompt ++ str "\n\nPersonality modifier: " ++ m }) := by
  constructor
  · intro template ptype p i config hp hi
    unfold apply_personality_to_template
    rw [hp, List.get?_map, hi]
    rfl
  · intro template pers m i config hm hi
    unfold apply_personality_modifier
    rw [hm, List.get?_map, hi]
    rfl

theorem C7_personality_application_witness :
    (apply_personality_to_template [c7Config] (str "absurdist")).get? 0 = some
      { c7Config with
        system_prompt :=
          if c7Config.system_prompt.isEmpty then
            stripStr profile_absurdist.system_prompt_modifier
          else c7Config.system_prompt ++ str "\n\n" ++
            stripStr profile_absurdist.system_prompt_modifier
        personality := some
          { type := str "absurdist"
            name := profile_absurdist.name
            description := profile_absurdist.description
            temperature_modifier := profile_absurdist.temperature_modifier } } :=
  C7_personality_application.1 [c7Config] (str "absurdist") profile_absurdist 0 c7Config
    rfl rfl

/-! ### Claim C8 -/

/-- C8: a CONTEXT block whose body fails to JSON-decode yields an empty
context for that slot without disturbing anything else: the failed slot
becomes `[]` (both parser variants), and whenever the record parses, every
other field equals its independent extraction; the record `c8Content`,
whose only CONTEXT block is `[{bad json`, still parses completely. -/
theorem C8_context_decode_local :
    (∀ body : Str, jsonParse (stripStr body) = none →
      recDecodeContext body = Json.arr []) ∧
    (∀ (content : Str) (st : ConversationStructure),
      parse_conversation_content content = some st →
      st.context = (extractContextBodies content).map recDecodeContext ∧
      st.actors = recActors content ∧
      st.models = recModels content ∧
      st.system_prompts = extractSystemPrompts content ∧
      st.conversation_turns = recreatorTurns content) ∧
    (∀ (actor a block : Str) (rest : List (Str × Str)), jsonParse block = none →
      findCtx ((a, block) :: rest) actor =
        if labelMatch a actor then Json.arr [] else findCtx rest actor) ∧
    parse_conversation_content c8Content = some
      { timestamp := 9
        scenario := str "z"
        actors := [str "A"]
        models := []
        temperature := []
        system_prompts := []
        context := [Json.arr []]
        conversation_turns := [(str "A", str "hi")] } := by
  refine ⟨?_, ?_, ?_, ?_⟩
  · intro body h
    unfold recDecodeContext
    rw [h]
  · intro content st h
    unfold parse_conversation_content at h
    cases htss : tsScan content with
    | none => rw [htss] at h; exact absurd h (by simp)
    | some v =>
      obtain ⟨ts, sc⟩ := v
      rw [htss] at h
      cases ht : recTempsOk content with
      | false => rw [ht] at h; exact absurd h (by simp)
      | true =>
        rw [ht] at h
        simp only [if_true] at h
        obtain rfl := (Option.some_injective _ h).symm
        exact ⟨rfl, rfl, rfl, rfl, rfl⟩
  · intro actor a block rest h
    cases hl : labelMatch a actor <;> simp [findCtx, h, hl]
  · rfl

theorem C8_context_decode_local_witness :
    jsonParse (stripStr (str "[\x7bbad json")) = none ∧
    recDecodeContext (str "[\x7bbad json") = Json.arr [] ∧
    findCtx [(str "A", str "[\x7bbad json")] (str "A") =
      if labelMatch (str "A") (str "A") then Json.arr [] else findCtx [] (str "A") :=
  ⟨rfl, C8_context_decode_local.1 (str "[\x7bbad json") rfl,
    C8_context_decode_local.2.2.1 (str "A") (str "A") (str "[\x7bbad json") [] rfl⟩

/-! ### Claim C10 -/

/-- C10: every turn the metadata-rebuilding parser retains has non-empty
content (a tagged turn whose stripped body is empty is dropped), and the
reported `num_turns` is exactly the number of retained turns; the
recreation-engine variant, by contrast, keeps empty-bodied turns, as
`c10Content` exhibits. -/
theorem C10_rebuild_turns_nonempty :
    (∀ (content : Str) (t : Str × Str), t ∈ rebuildTurns content → t.2 ≠ []) ∧
    (∀ (base content html : Str) (m : ConvMeta),
      extract_metadata base content html = some m →
      m.num_turns = (rebuildTurns content).length) ∧
    (recreatorTurns c10Content).map Prod.snd = [str "x", [], str "y"] ∧
    rebuildTurns c10Content = [(str "A", str "x"), (str "C", str "y")] := by
  refine ⟨?_, ?_, rfl, rfl⟩
  · intro content t ht
    unfold rebuildTurns at ht
    rw [List.mem_filterMap] at ht
    obtain ⟨p, _, hp⟩ := ht
    simp only at hp
    split at hp
    · exact absurd hp (by simp)
    · by_cases h2 : (stripStr p.2).isEmpty = true
      · rw [if_pos h2] at hp
        exact absurd hp (by simp)
      · rw [if_neg h2] at hp
        obtain rfl := (Option.some_injective _ hp).symm
        intro hcon
        simp only at hcon
        exact h2 (by rw [hcon]; rfl)
  · intro base content html m hm
    unfold extract_metadata at hm
    cases ht : rebuildTempsOk content with
    | false => rw [ht] at hm; exact absurd hm (by simp)
    | true =>
      rw [ht] at hm
      simp only [if_true] at hm
      obtain rfl := (Option.some_injective _ hm).symm
      rfl

theorem C10_rebuild_turns_nonempty_witness :
    (str "A", str "x") ∈ rebuildTurns c10Content ∧ (str "A", str "x").2 ≠ [] :=
  ⟨by decide, C10_rebuild_turns_nonempty.1 c10Content (str "A", str "x") (by decide)⟩

/-! ### String-scanning lemmas (used for claims C3) -/

theorem occurs_cons (pat : Str) (c : Char) (s : Str) :
    occurs pat (c :: s) = (pat.isPrefixOf (c :: s) || occurs pat s) := by
  unfold occurs
  cases hp : pat.isPrefixOf (c :: s) with
  | true => simp [splitFirst, hp]
  | false =>
    cases hs : splitFirst pat s with
    | none => simp [splitFirst, hp, hs]
    | some v => obtain ⟨a, b⟩ := v; simp [splitFirst, hp, hs]
theorem occurs_tail {pat : Str} {c : Char} {s : Str}
    (h : occurs pat (c :: s) = false) : occurs pat s = false := by
  rw [occurs_cons] at h
  exact (Bool.or_eq_false_iff.mp h).2

theorem occurs_true_of_suffix {pat t s : Str} (hsuf : t <:+ s)
    (h : occurs pat t = true) : occurs pat s = true := by
  obtain ⟨pre, rfl⟩ := hsuf
  induction pre with
  | nil => simpa using h
  | cons c pre ih =>
    show occurs pat (c :: (pre ++ t)) = true
    rw [occurs_cons, ih, Bool.or_true]

theorem occurs_false_of_suffix {pat t s : Str} (hsuf : t <:+ s)
    (h : occurs pat s = false) : occurs pat t = false := by
  cases ht : occurs pat t with
  | false => rfl
  | true => rw [occurs_true_of_suffix hsuf ht] at h; exact absurd h (by simp)

theorem splitFirst_eq {pat : Str} :
    ∀ {s pre post : Str}, splitFirst pat s = some (pre, post) →
      s = pre ++ pat ++ post := by
  intro s
  induction s with
  | nil =>
    intro pre post h
    unfold splitFirst at h
    split at h
    · next hemp =>
      injection h with h
      rw [Prod.mk.injEq] at h
      obtain ⟨h1, h2⟩ := h
      subst h1
      subst h2
      have hp : pat = [] := List.isEmpty_iff.mp hemp
      simp [hp]
    · exact absurd h (by simp)
  | cons c rest ih =>
    intro pre post h
    unfold splitFirst at h
    split at h
    · next hp =>
      obtain ⟨t, ht⟩ := List.isPrefixOf_iff_prefix.mp hp
      injection h with h
      rw [Prod.mk.injEq] at h
      obtain ⟨h1, h2⟩ := h
      subst h1
      subst h2
      rw [List.nil_append, ← ht, List.drop_left]
    · revert h
      cases hs : splitFirst pat rest with
      | none => intro h; exact absurd h (by simp)
      | some v =>
        obtain ⟨pre1, post1⟩ := v
        intro h
        injection h with h
        rw [Prod.mk.injEq] at h
        obtain ⟨h1, h2⟩ := h
        subst h1
        subst h2
        have hrest := ih hs
        simp [hrest]

theorem sysTagAt_after_suffix {s lab after : Str}
    (h : sysTagAt s = some (lab, after)) : after <:+ s := by
  cases s with
  | nil => exact absurd h (by simp [sysTagAt])
  | cons c rest =>
    simp only [sysTagAt] at h
    split at h
    · split at h
      · rename_i after1 heq
        split at h
        · injection h with h
          rw [Prod.mk.injEq] at h
          obtain ⟨h1, h2⟩ := h
          rw [← h2]
          have h3 : after1 <:+ '>' :: after1 := List.suffix_cons _ _
          rw [← heq] at h3
          exact (h3.trans (List.drop_suffix _ _)).trans (List.suffix_cons _ _)
        · exact absurd h (by simp)
      · exact absurd h (by simp)
    · exact absurd h (by simp)

theorem dropWhile_head_false {p : Char → Bool} :
    ∀ {s : Str} {c0 : Char} {t0 : Str}, s.dropWhile p = c0 :: t0 → p c0 = false := by
  intro s
  induction s with
  | nil => intro c0 t0 h; exact absurd h (by simp)
  | cons x s ih =>
    intro c0 t0 h
    rw [List.dropWhile_cons] at h
    split at h
    · exact ih h
    · next hx =>
      injection h with h1 h2
      rw [← h1]
      revert hx
      cases p x <;> simp

theorem stripStr_dropWhile (s : Str) : stripStr (s.dropWhile isWs) = stripStr s := by
  unfold stripStr
  have : (s.dropWhile isWs).dropWhile isWs = s.dropWhile isWs := by
    cases h : s.dropWhile isWs with
    | nil => rfl
    | cons c t =>
      have hc := dropWhile_head_false h
      rw [List.dropWhile_cons, hc]
      simp
  rw [this]

theorem takeWhile_append_cons {p : Char → Bool} :
    ∀ (xs : Str) (y : Char) (ys : Str), (∀ x ∈ xs, p x = true) → p y = false →
      (xs ++ y :: ys).takeWhile p = xs := by
  intro xs y ys hall hy
  induction xs with
  | nil => simp [List.takeWhile_cons, hy]
  | cons x xs ih =>
    have hx := hall x (by simp)
    rw [List.cons_append, List.takeWhile_cons, hx]
    simp only [if_true]
    rw [ih fun a ha => hall a (by simp [ha])]

theorem dropWhile_append_of_head {p : Char → Bool} :
    ∀ (a b : Str), (∀ c, b.head? = some c → p c = false) →
      (a ++ b).dropWhile p = a.dropWhile p ++ b := by
  intro a b hb
  induction a with
  | nil =>
    simp only [List.nil_append]
    cases b with
    | nil => rfl
    | cons c t =>
      have hc := hb c rfl
      simp [List.dropWhile_cons, hc]
  | cons x a ih =>
    cases hx : p x with
    | true => simp [List.dropWhile_cons, hx, ih]
    | false => simp [List.dropWhile_cons, hx]

theorem isPrefixOf_append_self (pat t : Str) : pat.isPrefixOf (pat ++ t) = true := by
  rw [List.isPrefixOf_iff_prefix]
  exact List.prefix_append pat t

theorem splitFirst_append_self (c : Char) (p rest : Str) :
    splitFirst (c :: p) ((c :: p) ++ rest) = some ([], rest) := by
  have h1 : (c :: p).isPrefixOf ((c :: p) ++ rest) = true := isPrefixOf_append_self _ _
  have h2 : ((c :: p) ++ rest).drop (c :: p).length = rest := List.drop_left _ _
  rw [List.cons_append] at h1 h2 ⊢
  simp only [splitFirst]
  rw [h1]
  simp [h2]

theorem splitFirst_term_concat :
    ∀ (b rest : Str), occurs (str "</s>") b = false →
      splitFirst (str "</s>") (b ++ str "</s>" ++ rest) = some (b, rest) := by
  intro b rest hb
  induction b with
  | nil =>
    show splitFirst (str "</s>") ([] ++ str "</s>" ++ rest) = some ([], rest)
    rw [List.nil_append]
    rw [show str "</s>" = '<' :: str "/s>" from rfl]
    exact splitFirst_append_self '<' (str "/s>") rest
  | cons c b ih =>
    show splitFirst _ (c :: (b ++ str "</s>" ++ rest)) = _
    simp only [splitFirst]
    have hpre : (str "</s>").isPrefixOf (c :: (b ++ str "</s>" ++ rest)) = false := by
      cases hp : (str "</s>").isPrefixOf (c :: (b ++ str "</s>" ++ rest)) with
      | false => rfl
      | true =>
        exfalso
        match b with
        | [] => simp [List.isPrefixOf, str] at hp
        | [b1] => simp [List.isPrefixOf, str] at hp
        | [b1, b2] => simp [List.isPrefixOf, str] at hp
        | b1 :: b2 :: b3 :: bs =>
          rw [show str "</s>" = ['<', '/', 's', '>'] from rfl] at hp
          simp only [List.cons_append, List.isPrefixOf, Bool.and_eq_true, beq_iff_eq] at hp
          obtain ⟨e1, e2, e3, e4, _⟩ := hp
          have hocc : occurs (str "</s>") (c :: b1 :: b2 :: b3 :: bs) = true := by
            rw [occurs_cons]
            rw [show ((str "</s>").isPrefixOf (c :: b1 :: b2 :: b3 :: bs)) = true from by
              rw [show str "</s>" = ['<', '/', 's', '>'] from rfl]
              simp only [List.isPrefixOf, Bool.and_eq_true, beq_iff_eq]
              exact ⟨e1, e2, e3, e4, trivial⟩]
            rfl
          rw [hocc] at hb
          exact absurd hb (by simp)
    rw [hpre]
    simp only [Bool.false_eq_true, if_false]
    rw [ih (occurs_tail hb)]

theorem extractSystemPromptsAux_fuel :
    ∀ (f1 f2 : Nat) (s : Str), s.length < f1 → s.length < f2 →
      extractSystemPromptsAux f1 s = extractSystemPromptsAux f2 s := by
  intro f1
  induction f1 with
  | zero => intro f2 s h1 h2; exact absurd h1 (by omega)
  | succ n ih =>
    intro f2 s h1 h2
    cases f2 with
    | zero => exact absurd h2 (by omega)
    | succ m =>
      cases s with
      | nil => rfl
      | cons c rest =>
        cases htag : sysTagAt (c :: rest) with
        | none =>
          simp only [extractSystemPromptsAux, htag]
          exact ih m rest (by simp at h1; omega) (by simp at h2; omega)
        | some v =>
          obtain ⟨lab, after⟩ := v
          cases hsp : splitFirst (str "</s>") (after.dropWhile isWs) with
          | none => simp only [extractSystemPromptsAux, htag, hsp]
          | some w =>
            obtain ⟨raw, rest2⟩ := w
            simp only [extractSystemPromptsAux, htag, hsp]
            have hsub := splitFirst_eq hsp
            have hsuf : after <:+ c :: rest := sysTagAt_after_suffix htag
            have hlen : (after.dropWhile isWs).length ≤ rest.length + 1 := by
              have := List.IsSuffix.length_le ((List.dropWhile_suffix isWs).trans hsuf)
              simpa using this
            have hr2 : rest2.length + 4 ≤ (after.dropWhile isWs).length := by
              rw [hsub]
              simp [List.length_append, str]
            simp only [List.length_cons] at h1 h2
            exact congrArg _ (ih m rest2 (by omega) (by omega))

theorem extractSystemPromptsAux_no_term :
    ∀ (fuel : Nat) (s : Str), occurs (str "</s>") s = false →
      extractSystemPromptsAux fuel s = [] := by
  intro fuel
  induction fuel with
  | zero => intro s _; rfl
  | succ n ih =>
    intro s h
    cases s with
    | nil => rfl
    | cons c rest =>
      cases htag : sysTagAt (c :: rest) with
      | none =>
        simp only [extractSystemPromptsAux, htag]
        exact ih rest (occurs_tail h)
      | some v =>
        obtain ⟨lab, after⟩ := v
        have hsuf : after.dropWhile isWs <:+ c :: rest :=
          (List.dropWhile_suffix isWs).trans (sysTagAt_after_suffix htag)
        have hocc : occurs (str "</s>") (after.dropWhile isWs) = false :=
          occurs_false_of_suffix hsuf h
        have hsp : splitFirst (str "</s>") (after.dropWhile isWs) = none := by
          have : (splitFirst (str "</s>") (after.dropWhile isWs)).isSome = false := hocc
          cases hx : splitFirst (str "</s>") (after.dropWhile isWs) with
          | none => rfl
          | some w => rw [hx] at this; exact absurd this (by simp)
        simp only [extractSystemPromptsAux, htag, hsp]

/-- The recreation extractor's scanner ignores a prefix containing no `<`. -/
theorem extractSystemPrompts_prefix_skip :
    ∀ (pre s : Str), (∀ c ∈ pre, c ≠ '<') →
      extractSystemPrompts (pre ++ s) = extractSystemPrompts s := by
  intro pre
  induction pre with
  | nil => intro s _; rfl
  | cons c pre ih =>
    intro s hpre
    have hc : c ≠ '<' := hpre c (by simp)
    have htag : sysTagAt (c :: (pre ++ s)) = none := by
      simp only [sysTagAt]
      rw [if_neg hc]
    show extractSystemPromptsAux ((c :: (pre ++ s)).length + 1) (c :: (pre ++ s)) =
      extractSystemPrompts s
    simp only [extractSystemPromptsAux, htag]
    rw [extractSystemPromptsAux_fuel ((c :: (pre ++ s)).length) ((pre ++ s).length + 1)
      (pre ++ s) (by simp) (by omega)]
    exact ih s fun a ha => hpre a (by simp [ha])

/-- `sysTagAt` at a well-formed SYSTEM opener. -/
theorem sysTagAt_tag (label tail : Str)
    (hlab : ∀ x ∈ label, x ≠ '>') (hne : label ≠ []) :
    sysTagAt ('<' :: ((label ++ str "#SYSTEM") ++ ('>' :: tail))) = some (label, tail) := by
  have hall : ∀ x ∈ label ++ str "#SYSTEM", (x != '>') = true := by
    intro x hx
    rcases List.mem_append.mp hx with h | h
    · simpa using hlab x h
    · rw [show str "#SYSTEM" = ['#', 'S', 'Y', 'S', 'T', 'E', 'M'] from rfl] at h
      fin_cases h <;> decide
  have hrun : ((label ++ str "#SYSTEM") ++ '>' :: tail).takeWhile (· != '>') =
      label ++ str "#SYSTEM" :=
    takeWhile_append_cons _ '>' tail hall (by decide)
  have hsb : (str "#SYSTEM").isSuffixOf (label ++ str "#SYSTEM") = true := by
    rw [List.isSuffixOf_iff_suffix]
    exact List.suffix_append _ _
  have hlpos : 0 < label.length := List.length_pos.mpr hne
  have hdrop : ((label ++ str "#SYSTEM") ++ '>' :: tail).drop
      (label ++ str "#SYSTEM").length = '>' :: tail := List.drop_left _ _
  have hsub7 : (label ++ str "#SYSTEM").length - 7 = label.length := by
    rw [List.length_append]
    rw [show (str "#SYSTEM").length = 7 from rfl]
    omega
  have htake : (label ++ str "#SYSTEM").take ((label ++ str "#SYSTEM").length - 7) =
      label := by
    rw [hsub7]
    exact List.take_left _ _
  have hge : ((label ++ str "#SYSTEM").length ≥ 8) := by
    rw [List.length_append]
    rw [show (str "#SYSTEM").length = 7 from rfl]
    omega
  simp only [sysTagAt, hrun, hdrop, hsb, htake, if_pos rfl]
  simp [hge]
  rw [show (str "#SYSTEM").length = 7 from rfl]
  omega

/-- The recreation extractor at a well-formed SYSTEM opener followed by a
terminator-free body, a `</s>`, and arbitrary rest: it emits the stripped
body up to that first terminator and continues after it. -/
theorem extractSystemPrompts_tag (label body rest : Str)
    (hlab : ∀ x ∈ label, x ≠ '>') (hne : label ≠ [])
    (hbody : occurs (str "</s>") body = false) :
    extractSystemPrompts ('<' :: ((label ++ str "#SYSTEM") ++ ('>' ::
        (body ++ str "</s>" ++ rest)))) =
      stripStr body :: extractSystemPrompts rest := by
  have htag := sysTagAt_tag label (body ++ str "</s>" ++ rest) hlab hne
  have hdw : (body ++ str "</s>" ++ rest).dropWhile isWs =
      body.dropWhile isWs ++ (str "</s>" ++ rest) := by
    rw [List.append_assoc]
    refine dropWhile_append_of_head body (str "</s>" ++ rest) ?_
    intro c hc
    rw [show str "</s>" ++ rest = '<' :: (str "/s>" ++ rest) from rfl] at hc
    simp only [List.head?_cons, Option.some.injEq] at hc
    rw [← hc]
    rfl
  have hocc : occurs (str "</s>") (body.dropWhile isWs) = false :=
    occurs_false_of_suffix (List.dropWhile_suffix isWs) hbody
  have hsp2 : splitFirst (str "</s>") (body.dropWhile isWs ++ (str "</s>" ++ rest)) =
      some (body.dropWhile isWs, rest) := by
    rw [← List.append_assoc]
    exact splitFirst_term_concat _ _ hocc
  show extractSystemPromptsAux (_ + 1) _ = _
  simp only [extractSystemPromptsAux, List.append_eq, htag, hdw, hsp2, stripStr_dropWhile]
  congr 1
  refine extractSystemPromptsAux_fuel _ _ rest ?_ ?_
  · simp only [List.length_cons, List.length_append]
    rw [show (str "#SYSTEM").length = 7 from rfl, show (str "</s>").length = 4 from rfl]
    omega
  · omega

/-! ### Claim C3 -/

/-- C3: the claim says a SYSTEM block is still returned when the `</s>`
terminator is absent.  Counterexample: on `<A#SYSTEM>\nhello` the
recreation extractor returns no SYSTEM block at all, although the text
does contain a SYSTEM block (the metadata-rebuild extractor returns it). -/
theorem C3_counterexample :
    extractSystemPrompts sysNoTerm = [] ∧
    extract_blocks sysNoTerm (str "SYSTEM") = [(str "A", str "hello")] :=
  ⟨rfl, rfl⟩

/-- C3 (amended): the recreation-engine extractor returns a SYSTEM block
only when a `</s>` follows the tag — the body then ends at the first
`</s>` (stripped), and with no terminator anywhere in the text no SYSTEM
block is returned even if SYSTEM tags are present; the metadata-rebuild
extractor ignores the terminator entirely: a block's body runs to the
next SYSTEM opener or end of input, running across `</s>` markers and
tags of other kinds (third conjunct). -/
theorem C3_system_terminator :
    (∀ s : Str, occurs (str "</s>") s = false → extractSystemPrompts s = []) ∧
    (∀ label body rest : Str, (∀ x ∈ label, x ≠ '>') → label ≠ [] →
      occurs (str "</s>") body = false →
      extractSystemPrompts ('<' :: ((label ++ str "#SYSTEM") ++ ('>' ::
          (body ++ str "</s>" ++ rest)))) =
        stripStr body :: extractSystemPrompts rest) ∧
    extract_blocks (str "<A#SYSTEM> x </s> <B>y") (str "SYSTEM") =
      [(str "A", str "x </s> <B>y")] :=
  ⟨fun s h => extractSystemPromptsAux_no_term _ s h,
   fun label body rest h1 h2 h3 => extractSystemPrompts_tag label body rest h1 h2 h3,
   rfl⟩

theorem C3_system_terminator_witness :
    extractSystemPrompts ('<' :: ((str "A" ++ str "#SYSTEM") ++ ('>' ::
        (str " hi " ++ str "</s>" ++ str "<A>t")))) =
      stripStr (str " hi ") :: extractSystemPrompts (str "<A>t") :=
  C3_system_terminator.2.1 (str "A") (str " hi ") (str "<A>t")
    (by decide) (by decide) (by decide)

/-! ### Claim C9 -/

/-- C9: the sort key is the first `conversation_<digits>` match in the
*joined path*, not the filename.  Counterexample: under a conversations
directory itself named `conversation_7`, every file's key is 7, the
stable sort preserves listing order, and files timestamped 300, 100, 200
are visited in that listing order instead of 100, 200, 300. -/
theorem C9_counterexample :
    chronoFiles (str "conversation_7") [f300, f100, f200] =
      some [f300, f100, f200] ∧
    ([f300, f100, f200] : List FileEntry) ≠ [f100, f200, f300] :=
  ⟨rfl, by decide⟩

/-- C9 (amended): provided the directory path does not interfere — i.e.
the `conversation_(\d+)` key of each joined path equals the timestamp
embedded in the filename, as in any normal layout — the Chronological
Driver's file list is a permutation of the filtered directory listing
sorted ascending by that timestamp, strictly ascending when the
timestamps are pairwise distinct, regardless of listing order. -/
theorem C9_chronological_order :
    ∀ (dir : Str) (files : List FileEntry) (ts : FileEntry → Nat),
      (∀ f ∈ listConvFiles files, convKey (pathJoin dir f.name) = some (ts f)) →
      ∃ l, chronoFiles dir files = some l ∧
        l.Perm (listConvFiles files) ∧
        l.Pairwise (fun a b => ts a ≤ ts b) ∧
        ((listConvFiles files).Pairwise (fun a b => ts a ≠ ts b) →
          l.Pairwise (fun a b => ts a < ts b)) := by
  intro dir files ts hkey
  set key : FileEntry → Nat := fun f => (convKey (pathJoin dir f.name)).getD 0 with hkeydef
  have hkey2 : ∀ f ∈ listConvFiles files, key f = ts f := by
    intro f hf
    rw [hkeydef]
    simp only
    rw [hkey f hf]
    rfl
  have hall : (listConvFiles files).all
      (fun f => (convKey (pathJoin dir f.name)).isSome) = true := by
    rw [List.all_eq_true]
    intro f hf
    rw [hkey f hf]
    rfl
  have hchrono : chronoFiles dir files = some (sortByKey key (listConvFiles files)) := by
    unfold chronoFiles
    simp only [hall, if_true]
  letI : IsTotal FileEntry (fun a b => key a ≤ key b) := ⟨fun a b => Nat.le_total _ _⟩
  letI : IsTrans FileEntry (fun a b => key a ≤ key b) :=
    ⟨fun _ _ _ hab hbc => Nat.le_trans hab hbc⟩
  have hperm : (sortByKey key (listConvFiles files)).Perm (listConvFiles files) :=
    List.perm_insertionSort _ _
  have hmem : ∀ a ∈ sortByKey key (listConvFiles files), a ∈ listConvFiles files :=
    fun a ha => hperm.mem_iff.mp ha
  have hsorted : (sortByKey key (listConvFiles files)).Pairwise
      (fun a b => key a ≤ key b) :=
    List.sorted_insertionSort _ _
  have hsorted2 : (sortByKey key (listConvFiles files)).Pairwise
      (fun a b => ts a ≤ ts b) := by
    refine List.Pairwise.imp_of_mem ?_ hsorted
    intro a b ha hb hle
    rw [← hkey2 a (hmem a ha), ← hkey2 b (hmem b hb)]
    exact hle
  refine ⟨sortByKey key (listConvFiles files), hchrono, hperm, hsorted2, ?_⟩
  intro hne
  have hne2 : (sortByKey key (listConvFiles files)).Pairwise
      (fun a b => ts a ≠ ts b) := by
    refine (List.Perm.pairwise_iff ?_ hperm).mpr hne
    intro a b h
    exact fun e => h e.symm
  refine (hsorted2.and hne2).imp ?_
  intro a b hab
  exact lt_of_le_of_ne hab.1 hab.2

theorem C9_chronological_order_witness :
    ∃ l, chronoFiles (str "d") [f300, f100, f200] = some l ∧
      l.Perm (listConvFiles [f300, f100, f200]) ∧
      l.Pairwise (fun a b => (convKey (pathJoin (str "d") a.name)).getD 0 ≤
        (convKey (pathJoin (str "d") b.name)).getD 0) ∧
      ((listConvFiles [f300, f100, f200]).Pairwise (fun a b =>
          (convKey (pathJoin (str "d") a.name)).getD 0 ≠
          (convKey (pathJoin (str "d") b.name)).getD 0) →
        l.Pairwise (fun a b => (convKey (pathJoin (str "d") a.name)).getD 0 <
          (convKey (pathJoin (str "d") b.name)).getD 0)) :=
  C9_chronological_order (str "d") [f300, f100, f200]
    (fun f => (convKey (pathJoin (str "d") f.name)).getD 0) (by decide)
